import Mathlib

set_option maxRecDepth 8192

/-
Shallow embedding of the nes 6502 emulator core (src/src/cpu.rs and
src/src/opcode/) in Lean 4. Machine integers are modelled as Nat with
explicit reductions modulo 2^8 or 2^16 where the Rust code performs
wrapping arithmetic or truncating casts. The 64 KiB address space is a
total function from addresses to byte values; writes are function
updates. Rust panics are modelled with Except String.
-/

namespace Nes

/-- Address space of the CPU: src/src/cpu.rs, type AddressSpace, a 65536
byte buffer, here a total function from addresses to byte values. -/
def Mem : Type := Nat → Nat

/-- Write one byte into the address space: the Rust assignment
memory[addr] = value, as a function update. -/
def Mem.write (m : Mem) (addr v : Nat) : Mem :=
  fun a => if a = addr then v else m a

/-- Processor status register: src/src/cpu.rs, struct ProcessorStatus,
seven independent boolean flags, field for field. -/
structure ProcessorStatus where
  carry : Bool
  zero : Bool
  interrupt_disable : Bool
  overflow : Bool
  b_flag : Bool
  negative : Bool
  decimal : Bool
  deriving DecidableEq, Repr

/-- Power up value of the status register: src/src/cpu.rs,
ProcessorStatus::new, only interrupt_disable starts true. -/
def ProcessorStatus.new : ProcessorStatus :=
  { carry := false, zero := false, b_flag := false,
    interrupt_disable := true, overflow := false, negative := false,
    decimal := false }

/-- Encoding of the status register into one byte: src/src/cpu.rs, the
impl of From for u8 taking a ProcessorStatus reference. Bit 5, the upper
bit of the b flag, is always 1. -/
def statusToU8 (s : ProcessorStatus) : Nat :=
  s.carry.toNat
    ||| (s.zero.toNat <<< 1)
    ||| (s.interrupt_disable.toNat <<< 2)
    ||| (s.decimal.toNat <<< 3)
    ||| (s.b_flag.toNat <<< 4)
    ||| (1 <<< 5)
    ||| (s.overflow.toNat <<< 6)
    ||| (s.negative.toNat <<< 7)

/-- Modelled from the spec: the decoding direction of the status byte is
missing from src (src/src/opcode/push_pull.rs calls value.into() in
Pull::execute, but no impl of From for ProcessorStatus from u8 exists
under src). Spec section 4.1: decode is the exact inverse of encode for
bits 0 to 4, 6 and 7, and ignores bit 5. -/
def statusFromU8 (b : Nat) : ProcessorStatus :=
  { carry := b.testBit 0, zero := b.testBit 1,
    interrupt_disable := b.testBit 2, decimal := b.testBit 3,
    b_flag := b.testBit 4, overflow := b.testBit 6,
    negative := b.testBit 7 }

/-- CPU state: src/src/cpu.rs, struct Cpu. The Stack struct of the source
holds one field, the absolute stack_pointer, inlined here. -/
structure Cpu where
  program_counter : Nat
  stack_pointer : Nat
  status : ProcessorStatus
  a : Nat
  x : Nat
  y : Nat
  memory : Mem
  cycles : Nat

/-- Merge two fetched bytes into a 16 bit address, low byte first:
src/src/opcode/mod.rs, fn bytes_to_addr. -/
def bytes_to_addr (first second : Nat) : Nat :=
  (second <<< 8) ||| first

/-- Split a 16 bit address into low and high byte: src/src/opcode/mod.rs,
fn addr_to_bytes. The casts to u8 are truncations modulo 256. -/
def addr_to_bytes (addr : Nat) : Nat × Nat :=
  (addr % 256, (addr >>> 8) % 256)

/-- Page size constant: src/src/opcode/mod.rs, PAGE_SIZE. -/
def PAGE_SIZE : Nat := 0x100

/-- Whether two addresses fall on different 256 byte pages:
src/src/opcode/mod.rs, fn is_on_different_pages. -/
def is_on_different_pages (src dest : Nat) : Bool :=
  src / PAGE_SIZE != dest / PAGE_SIZE

/-- Initial absolute stack pointer: src/src/cpu.rs, Stack::new, based at
0x1000 plus the power up offset 0xFD. -/
def Stack.new : Nat := 0x1000 + 0xFD

/-- Stack pointer as the 8 bit offset shown in the trace:
src/src/cpu.rs, Stack::as_stack_offset, the cast to u8 truncates
modulo 256. -/
def Stack.as_stack_offset (sp : Nat) : Nat :=
  (sp - 0x1000) % 256

/-- Push one byte: src/src/cpu.rs, Stack::push. Writes at the absolute
stack pointer, then decrements it, with no wrap inside a page. -/
def Stack.push (m : Mem) (sp v : Nat) : Mem × Nat :=
  (m.write sp v, sp - 1)

/-- Pop one byte: src/src/cpu.rs, Stack::pop. Reads above the absolute
stack pointer, then increments it. -/
def Stack.pop (m : Mem) (sp : Nat) : Nat × Nat :=
  (m (sp + 1), sp + 1)

/-- Push a 16 bit address: src/src/cpu.rs, Stack::push_addr. High byte at
the stack pointer, low byte one below, pointer moves down by two. -/
def Stack.push_addr (m : Mem) (sp addr : Nat) : Mem × Nat :=
  let pcl := (addr_to_bytes addr).1
  let pch := (addr_to_bytes addr).2
  ((m.write sp pch).write (sp - 1) pcl, sp - 2)

/-- Pop a 16 bit address: src/src/cpu.rs, Stack::pop_addr. Returns the
pair of low and high byte and the incremented pointer. -/
def Stack.pop_addr (m : Mem) (sp : Nat) : (Nat × Nat) × Nat :=
  ((m (sp + 1), m (sp + 2)), sp + 2)

/-- Iterate Stack.push of a fixed byte, for exercising the stack
discipline on a sequence of pushes. -/
def Stack.pushN (v : Nat) : Nat → Mem × Nat → Mem × Nat
  | 0, s => s
  | n + 1, s => Stack.push (Stack.pushN v n s).1 (Stack.pushN v n s).2 v

/-- Index register selector of an addressing mode:
src/src/opcode/addressing_mode.rs, enum Register, imported by the family
files under the name AddRegister. -/
inductive AddRegister where
  | none
  | x
  | y
  deriving DecidableEq, Repr

/-- Addressing modes: src/src/opcode/addressing_mode.rs, enum
AddressMode, variant for variant. The Relative offset is a signed 8 bit
value in the source, here an Int. -/
inductive AddressMode where
  | accumulate
  | immediate (value : Nat)
  | relative (offset : Int)
  | zeroPage (register : AddRegister) (offset : Nat)
  | absolute (register : AddRegister) (address : Nat)
  | indirect (register : AddRegister) (address_to_read_indirect : Nat)
  deriving DecidableEq, Repr

/-- Effective address of an addressing mode:
src/src/opcode/addressing_mode.rs, AddressMode::to_addr. The u8 and u16
additions are wrapping (the source comments both with Intentionally wrap
over), modelled with mod 256 and mod 65536; the Indirect arm panics. -/
def AddressMode.to_addr (mode : AddressMode) (cpu : Cpu) :
    Except String (Option Nat) :=
  match mode with
  | .relative offset =>
      .ok (some (((cpu.program_counter : Int) + offset).emod 65536).toNat)
  | .zeroPage register offset =>
      match register with
      | .none => .ok (some offset)
      | .x => .ok (some ((cpu.x + offset) % 256))
      | .y => .ok (some ((cpu.y + offset) % 256))
  | .absolute register address =>
      match register with
      | .none => .ok (some address)
      | .x => .ok (some ((cpu.x + address) % 65536))
      | .y => .ok (some ((cpu.y + address) % 65536))
  | .indirect _ _ => .error "Unsupported!"
  | _ => .ok none

/-- Register targeted by a load or store: src/src/opcode/mod.rs, enum
Register with variants A, X and Y. -/
inductive Register where
  | a
  | x
  | y
  deriving DecidableEq, Repr

/-- Branch family: the seven branch structs of src/src/opcode/branch.rs,
each carrying the relative operand byte fetched at decode time. -/
inductive Branch where
  | bcs (relative_value : Nat)
  | bcc (relative_value : Nat)
  | bvs (relative_value : Nat)
  | bvc (relative_value : Nat)
  | beq (relative_value : Nat)
  | bne (relative_value : Nat)
  | bpl (relative_value : Nat)
  deriving DecidableEq, Repr

/-- Modelled from the spec: the aggregate Branch recognizer called by
src/src/opcode/mod.rs as Branch::new(opcode, cpu) is missing from src;
only the per instruction structs with their OPCODE constants and new
functions exist in src/src/opcode/branch.rs. It matches the opcode
against the seven OPCODE constants and fetches the operand byte at
program_counter + 1 as each new function in branch.rs does (a u16
addition, modelled mod 65536). -/
def Branch.new (opcode : Nat) (cpu : Cpu) : Option Branch :=
  let relative_value := cpu.memory ((cpu.program_counter + 1) % 65536)
  if opcode = 0xB0 then some (.bcs relative_value)
  else if opcode = 0x90 then some (.bcc relative_value)
  else if opcode = 0x70 then some (.bvs relative_value)
  else if opcode = 0x50 then some (.bvc relative_value)
  else if opcode = 0xF0 then some (.beq relative_value)
  else if opcode = 0xD0 then some (.bne relative_value)
  else if opcode = 0x10 then some (.bpl relative_value)
  else none

/-- Branch condition read from the status register, one per execute
function in src/src/opcode/branch.rs. -/
def Branch.cond (br : Branch) (cpu : Cpu) : Bool :=
  match br with
  | .bcs _ => cpu.status.carry
  | .bcc _ => !cpu.status.carry
  | .bvs _ => cpu.status.overflow
  | .bvc _ => !cpu.status.overflow
  | .beq _ => cpu.status.zero
  | .bne _ => !cpu.status.zero
  | .bpl _ => !cpu.status.negative

/-- Operand byte stored in a branch struct. -/
def Branch.relative_value (br : Branch) : Nat :=
  match br with
  | .bcs v | .bcc v | .bvs v | .bvc v | .beq v | .bne v | .bpl v => v

/-- Execution of a branch: the shared body of the seven execute
functions in src/src/opcode/branch.rs. The program counter advances by
2 and cycles by 2; when the condition holds the relative operand byte is
cast to u16 (zero extended) and added with wrapping, and one more cycle
is added. No page crossing cycle exists (the source leaves a TODO). -/
def Branch.execute (br : Branch) (cpu : Cpu) : Cpu :=
  let c1 := { cpu with
    program_counter := (cpu.program_counter + 2) % 65536,
    cycles := cpu.cycles + 2 }
  if br.cond cpu then
    { c1 with
      program_counter := (c1.program_counter + br.relative_value) % 65536,
      cycles := c1.cycles + 1 }
  else c1

/-- Flag family: src/src/opcode/flag.rs, enum Flag. -/
inductive Flag where
  | clc
  | sec
  | cli
  | sei
  | clv
  | cld
  | sed
  deriving DecidableEq, Repr

/-- Flag recognizer: src/src/opcode/flag.rs, Flag::new. -/
def Flag.new (opcode : Nat) : Option Flag :=
  if opcode = 0x18 then some .clc
  else if opcode = 0x38 then some .sec
  else if opcode = 0x58 then some .cli
  else if opcode = 0x78 then some .sei
  else if opcode = 0xB8 then some .clv
  else if opcode = 0xD8 then some .cld
  else if opcode = 0xF8 then some .sed
  else none

/-- The two operand bytes following the opcode merged into a 16 bit
address, the expression bytes_to_addr(value, cpu.memory[pc + 2]) with
value = cpu.memory[pc + 1] that the family constructors compute (usize
indexing, no wrap). -/
def operand16 (cpu : Cpu) : Nat :=
  bytes_to_addr (cpu.memory (cpu.program_counter + 1))
    (cpu.memory (cpu.program_counter + 2))

/-- Load instruction value: src/src/opcode/load.rs, struct Load. -/
structure Load where
  mode : AddressMode
  register : Register
  opcode : Nat
  deriving DecidableEq, Repr

/-- Target register of a load opcode: src/src/opcode/load.rs,
Load::get_register. -/
def Load.get_register (opcode : Nat) : Option Register :=
  if opcode = 0xA9 ∨ opcode = 0xA5 ∨ opcode = 0xB5 ∨ opcode = 0xAD ∨
      opcode = 0xBD ∨ opcode = 0xB9 ∨ opcode = 0xA1 ∨ opcode = 0xB1 then
    some .a
  else if opcode = 0xA2 ∨ opcode = 0xA6 ∨ opcode = 0xB6 ∨ opcode = 0xAE ∨
      opcode = 0xBE then
    some .x
  else if opcode = 0xA0 ∨ opcode = 0xA4 ∨ opcode = 0xB4 ∨ opcode = 0xAC ∨
      opcode = 0xBC then
    some .y
  else none

/-- Addressing mode of a load opcode: src/src/opcode/load.rs,
Load::get_mode, arm for arm. The arm for 0xB9 and 0xBE builds an
Absolute mode with AddRegister::X exactly as the source does. The final
arm panics. -/
def Load.get_mode (opcode : Nat) (cpu : Cpu) : Except String AddressMode :=
  let value := cpu.memory (cpu.program_counter + 1)
  if opcode = 0xA9 ∨ opcode = 0xA2 ∨ opcode = 0xA0 then
    .ok (.immediate value)
  else if opcode = 0xA5 ∨ opcode = 0xA6 ∨ opcode = 0xA4 then
    .ok (.zeroPage .none value)
  else if opcode = 0xB5 ∨ opcode = 0xB4 then
    .ok (.zeroPage .x value)
  else if opcode = 0xB6 then
    .ok (.zeroPage .y value)
  else if opcode = 0xAD ∨ opcode = 0xAE ∨ opcode = 0xAC then
    .ok (.absolute .none (operand16 cpu))
  else if opcode = 0xBD ∨ opcode = 0xBC then
    .ok (.absolute .x (operand16 cpu))
  else if opcode = 0xB9 ∨ opcode = 0xBE then
    .ok (.absolute .x (operand16 cpu))
  else if opcode = 0xA1 then
    .ok (.indirect .x (operand16 cpu))
  else if opcode = 0xB1 then
    .ok (.indirect .y (operand16 cpu))
  else .error "Unexpected opcode"

/-- Load recognizer: src/src/opcode/load.rs, Load::new. A byte outside
the load table yields ok none; a panic inside get_mode propagates. -/
def Load.new (opcode : Nat) (cpu : Cpu) : Except String (Option Load) :=
  match Load.get_register opcode with
  | none => .ok none
  | some register =>
      match Load.get_mode opcode cpu with
      | .error e => .error e
      | .ok mode => .ok (some { mode := mode, register := register,
                                opcode := opcode })

/-- Store instruction value: src/src/opcode/store.rs, struct Store. -/
structure Store where
  mode : AddressMode
  register : Register
  opcode : Nat
  deriving DecidableEq, Repr

/-- Source register of a store opcode: src/src/opcode/store.rs,
Store::get_register. -/
def Store.get_register (opcode : Nat) : Option Register :=
  if opcode = 0x85 ∨ opcode = 0x95 ∨ opcode = 0x8D ∨ opcode = 0x9D ∨
      opcode = 0x99 ∨ opcode = 0x81 ∨ opcode = 0x91 then
    some .a
  else if opcode = 0x86 ∨ opcode = 0x96 ∨ opcode = 0x8E then
    some .x
  else if opcode = 0x84 ∨ opcode = 0x94 ∨ opcode = 0x8C then
    some .y
  else none

/-- Addressing mode of a store opcode: src/src/opcode/store.rs,
Store::get_mode, arm for arm. The arm for 0x99 builds an Absolute mode
with AddRegister::X exactly as the source does. -/
def Store.get_mode (opcode : Nat) (cpu : Cpu) : Except String AddressMode :=
  let value := cpu.memory (cpu.program_counter + 1)
  if opcode = 0x85 ∨ opcode = 0x86 ∨ opcode = 0x84 then
    .ok (.zeroPage .none value)
  else if opcode = 0x95 ∨ opcode = 0x94 then
    .ok (.zeroPage .x value)
  else if opcode = 0x96 then
    .ok (.zeroPage .y value)
  else if opcode = 0x8D ∨ opcode = 0x8E ∨ opcode = 0x8C then
    .ok (.absolute .none (operand16 cpu))
  else if opcode = 0x9D then
    .ok (.absolute .x (operand16 cpu))
  else if opcode = 0x99 then
    .ok (.absolute .x (operand16 cpu))
  else if opcode = 0x81 then
    .ok (.indirect .x (operand16 cpu))
  else if opcode = 0x91 then
    .ok (.indirect .y (operand16 cpu))
  else .error "Unexpected opcode"

/-- Store recognizer: src/src/opcode/store.rs, Store::new. -/
def Store.new (opcode : Nat) (cpu : Cpu) : Except String (Option Store) :=
  match Store.get_register opcode with
  | none => .ok none
  | some register =>
      match Store.get_mode opcode cpu with
      | .error e => .error e
      | .ok mode => .ok (some { mode := mode, register := register,
                                opcode := opcode })

/-- Jmp instruction value: src/src/opcode/jump.rs, struct Jmp. -/
structure Jmp where
  opcode : Nat
  mode : AddressMode
  deriving DecidableEq, Repr

/-- Jmp recognizer: src/src/opcode/jump.rs, Jmp::new. -/
def Jmp.new (opcode : Nat) (cpu : Cpu) : Option Jmp :=
  let address := operand16 cpu
  if opcode = 0x4C then
    some { opcode := opcode, mode := .absolute .none address }
  else if opcode = 0x6C then
    some { opcode := opcode, mode := .indirect .none address }
  else none

/-- Jsr instruction value: src/src/opcode/jump.rs, struct Jsr. -/
structure Jsr where
  mode : AddressMode
  deriving DecidableEq, Repr

/-- Jsr recognizer: src/src/opcode/jump.rs, Jsr::new, opcode 0x20. -/
def Jsr.new (opcode : Nat) (cpu : Cpu) : Option Jsr :=
  if opcode = 0x20 then
    some { mode := .absolute .none (operand16 cpu) }
  else none

/-- Rts recognizer: src/src/opcode/jump.rs, Rts::new, opcode 0x60. -/
def Rts.new (opcode : Nat) : Option Unit :=
  if opcode = 0x60 then some () else none

/-- Nop recognizer: src/src/opcode/mod.rs, Nop::new, opcode 0xEA. -/
def Nop.new (opcode : Nat) : Option Unit :=
  if opcode = 0xEA then some () else none

/-- Bit instruction value: src/src/opcode/mod.rs, struct Bit. -/
structure Bit where
  opcode : Nat
  mode : AddressMode
  deriving DecidableEq, Repr

/-- Bit recognizer: src/src/opcode/mod.rs, Bit::new, opcodes 0x24 and
0x2C. -/
def Bit.new (opcode : Nat) (cpu : Cpu) : Option Bit :=
  let value := cpu.memory (cpu.program_counter + 1)
  if opcode = 0x24 then
    some { opcode := opcode, mode := .zeroPage .none value }
  else if opcode = 0x2C then
    some { opcode := opcode, mode := .absolute .none (operand16 cpu) }
  else none

/-- Decoded operation: the trait object returned by opcode::next in
src/src/opcode/mod.rs, as a closed sum over the instruction families. -/
inductive Operation where
  | branch (br : Branch)
  | flag (f : Flag)
  | load (l : Load)
  | store (s : Store)
  | jmp (j : Jmp)
  | jsr (j : Jsr)
  | rts
  | nop
  | bit (b : Bit)
  deriving DecidableEq, Repr

/-- Upper case hexadecimal digit, as Rust {:X} formatting renders one
digit. -/
def hexDigitChar (n : Nat) : Char :=
  if n = 0 then '0' else if n = 1 then '1' else if n = 2 then '2'
  else if n = 3 then '3' else if n = 4 then '4' else if n = 5 then '5'
  else if n = 6 then '6' else if n = 7 then '7' else if n = 8 then '8'
  else if n = 9 then '9' else if n = 10 then 'A' else if n = 11 then 'B'
  else if n = 12 then 'C' else if n = 13 then 'D' else if n = 14 then 'E'
  else 'F'

/-- Two digit upper case hexadecimal, the Rust format {:02X} on a byte. -/
def hex2 (n : Nat) : String :=
  String.mk [hexDigitChar (n / 16 % 16), hexDigitChar (n % 16)]

/-- Digits of the unpadded upper case hexadecimal rendering, most
significant first; the first argument is fuel bounding the recursion. -/
def hexDigitsAux : Nat → Nat → List Char
  | 0, _ => []
  | fuel + 1, n =>
      if n < 16 then [hexDigitChar n]
      else hexDigitsAux fuel (n / 16) ++ [hexDigitChar (n % 16)]

/-- Unpadded upper case hexadecimal, the Rust format {:X}. -/
def hexRepr (n : Nat) : String :=
  String.mk (hexDigitsAux (n + 1) n)

/-- Whether the first list is a leading segment of the second. -/
def startsWithChars : List Char → List Char → Bool
  | [], _ => true
  | _ :: _, [] => false
  | p :: ps, c :: cs => p = c && startsWithChars ps cs

/-- Whether the pattern occurs as a contiguous segment of the list. -/
def hasSubstrChars (pat : List Char) : List Char → Bool
  | [] => startsWithChars pat []
  | c :: cs => startsWithChars pat (c :: cs) || hasSubstrChars pat cs

/-- Whether pat occurs contiguously inside s. -/
def strContains (s pat : String) : Bool :=
  hasSubstrChars pat.toList s.toList

/-- Panic message of the unrecognized opcode arm of opcode::next in
src/src/opcode/mod.rs: the format Unexpected opcode {:02X} applied to
the opcode byte, and to nothing else. -/
def unexpectedOpcodeMsg (opcode : Nat) : String :=
  "Unexpected opcode " ++ hex2 opcode

/-- Decode the instruction at the program counter: src/src/opcode/mod.rs,
fn next. The family recognizers are tried in the source order; the Rust
signature takes the CPU by shared reference, so decode cannot write any
CPU state, and the fall through arm panics with a message naming only
the opcode byte. -/
def next (cpu : Cpu) : Except String Operation :=
  let pc := cpu.program_counter
  let opcode := cpu.memory pc
  match Branch.new opcode cpu with
  | some branch => .ok (.branch branch)
  | none =>
  match Flag.new opcode with
  | some flag => .ok (.flag flag)
  | none =>
  match Load.new opcode cpu with
  | .error e => .error e
  | .ok (some load) => .ok (.load load)
  | .ok none =>
  match Store.new opcode cpu with
  | .error e => .error e
  | .ok (some store) => .ok (.store store)
  | .ok none =>
  match Jmp.new opcode cpu with
  | some jmp => .ok (.jmp jmp)
  | none =>
  match Jsr.new opcode cpu with
  | some jsr => .ok (.jsr jsr)
  | none =>
  match Rts.new opcode with
  | some _ => .ok .rts
  | none =>
  match Nop.new opcode with
  | some _ => .ok .nop
  | none =>
  match Bit.new opcode cpu with
  | some bit => .ok (.bit bit)
  | none => .error (unexpectedOpcodeMsg opcode)

/-- Opcode bytes recognized by some family recognizer in
src/src/opcode/mod.rs fn next: the union of the match tables of
Branch, Flag, Load, Store, Jmp, Jsr, Rts, Nop and Bit. -/
def recognizedList : List Nat :=
  [0xB0, 0x90, 0x70, 0x50, 0xF0, 0xD0, 0x10,
   0x18, 0x38, 0x58, 0x78, 0xB8, 0xD8, 0xF8,
   0xA9, 0xA5, 0xB5, 0xAD, 0xBD, 0xB9, 0xA1, 0xB1,
   0xA2, 0xA6, 0xB6, 0xAE, 0xBE,
   0xA0, 0xA4, 0xB4, 0xAC, 0xBC,
   0x85, 0x95, 0x8D, 0x9D, 0x99, 0x81, 0x91,
   0x86, 0x96, 0x8E, 0x84, 0x94, 0x8C,
   0x4C, 0x6C, 0x20, 0x60, 0xEA, 0x24, 0x2C]

/-- A byte some instruction family recognizes. -/
def recognizedOpcode (opcode : Nat) : Prop :=
  opcode ∈ recognizedList

instance (opcode : Nat) : Decidable (recognizedOpcode opcode) := by
  unfold recognizedOpcode
  exact inferInstance

/-- Execution of JSR: src/src/opcode/jump.rs, Jsr::execute. The return
address is program_counter + BYTES - 1 computed in u16 (modelled
mod 65536), pushed with Stack::push_addr; the program counter becomes
the unwrapped to_addr of the mode, and 6 cycles are added. -/
def Jsr.execute (j : Jsr) (cpu : Cpu) : Except String Cpu :=
  let return_address := (cpu.program_counter + 3 - 1) % 65536
  let pushed := Stack.push_addr cpu.memory cpu.stack_pointer return_address
  let c1 := { cpu with memory := pushed.1, stack_pointer := pushed.2 }
  match j.mode.to_addr c1 with
  | .error e => .error e
  | .ok none => .error "called unwrap on None"
  | .ok (some target) =>
      .ok { c1 with program_counter := target, cycles := c1.cycles + 6 }

/-- Execution of RTS: src/src/opcode/jump.rs, Rts::execute. Pops the two
byte return address, recombines it with bytes_to_addr low byte first,
adds BYTES = 1 to the program counter in u16 (modelled mod 65536), and
adds 6 cycles. -/
def Rts.execute (cpu : Cpu) : Cpu :=
  let popped := Stack.pop_addr cpu.memory cpu.stack_pointer
  let pcl := popped.1.1
  let pch := popped.1.2
  let return_address := bytes_to_addr pcl pch
  { cpu with
    stack_pointer := popped.2,
    program_counter := (return_address + 1) % 65536,
    cycles := cpu.cycles + 6 }

/-- Trace line of the run loop: src/src/cpu.rs, Cpu::run, the info
format string {:X}  {}  (tab)A:{:02X} X:{:02X} Y:{:02X} P:{:02X}
SP: {:02X} CYC: {}. The instruction dump placed in the second slot is
passed in as a string. -/
def runTraceLine (cpu : Cpu) (dump : String) : String :=
  hexRepr cpu.program_counter ++ "  " ++ dump ++ "  \t" ++
    "A:" ++ hex2 cpu.a ++
    " X:" ++ hex2 cpu.x ++
    " Y:" ++ hex2 cpu.y ++
    " P:" ++ hex2 (statusToU8 cpu.status) ++
    " SP: " ++ hex2 (Stack.as_stack_offset cpu.stack_pointer) ++
    " CYC: " ++ Nat.repr cpu.cycles

/-- The register and cycle fields in the exact shape the specification
and the conformance test in src/src/cpu.rs require: two hex digits after
each label with no space after any colon, and CYC: directly followed by
the decimal cycle count. -/
def specStateFields (cpu : Cpu) : String :=
  "A:" ++ hex2 cpu.a ++
    " X:" ++ hex2 cpu.x ++
    " Y:" ++ hex2 cpu.y ++
    " P:" ++ hex2 (statusToU8 cpu.status) ++
    " SP:" ++ hex2 (Stack.as_stack_offset cpu.stack_pointer) ++
    " CYC:" ++ Nat.repr cpu.cycles

/-- Branch target as the specification words it: the already advanced
program counter p + 2 plus the operand interpreted as a signed, sign
extended 8 bit offset, modulo 2 to the 16. -/
def specBranchTarget (p offset : Nat) : Nat :=
  let signed : Int := if offset < 0x80 then (offset : Int)
                      else (offset : Int) - 256
  ((((p : Int) + 2 + signed)).emod 65536).toNat

/-- All zero address space. -/
def mem0 : Mem := fun _ => 0

/-- Address space holding 0xFF everywhere. -/
def memFF : Mem := fun _ => 0xFF

/-- Address space holding 0x02, an unrecognized opcode byte,
everywhere. -/
def mem02 : Mem := fun _ => 0x02

/-- Status with only the zero flag set, used by branch examples. -/
def statusZeroSet : ProcessorStatus :=
  { carry := false, zero := true, b_flag := false,
    interrupt_disable := false, overflow := false, negative := false,
    decimal := false }

/-- Concrete state for the zero page wrap example: x register 0x02. -/
def cpuC6 : Cpu :=
  { program_counter := 0x8000, stack_pointer := Stack.new,
    status := ProcessorStatus.new, a := 0, x := 0x02, y := 0,
    memory := mem0, cycles := 7 }

/-- Concrete state for branch examples: PC 0x8000, zero flag set. -/
def cpuC2 : Cpu :=
  { program_counter := 0x8000, stack_pointer := Stack.new,
    status := statusZeroSet, a := 0, x := 0, y := 0,
    memory := mem0, cycles := 7 }

/-- Concrete state for the page crossing branch example: PC 0x80F0,
zero flag set. -/
def cpuC4 : Cpu :=
  { program_counter := 0x80F0, stack_pointer := Stack.new,
    status := statusZeroSet, a := 0, x := 0, y := 0,
    memory := mem0, cycles := 7 }

/-- Unrecognized opcode byte 0xFF at every address, PC 0. -/
def cpuC7a : Cpu :=
  { program_counter := 0, stack_pointer := Stack.new,
    status := ProcessorStatus.new, a := 0, x := 0, y := 0,
    memory := memFF, cycles := 7 }

/-- Unrecognized opcode byte 0xFF at every address, PC 1. -/
def cpuC7b : Cpu :=
  { program_counter := 1, stack_pointer := Stack.new,
    status := ProcessorStatus.new, a := 0, x := 0, y := 0,
    memory := memFF, cycles := 7 }

/-- Unrecognized opcode byte 0x02 at every address, PC 0. -/
def cpuC7w : Cpu :=
  { program_counter := 0, stack_pointer := Stack.new,
    status := ProcessorStatus.new, a := 0, x := 0, y := 0,
    memory := mem02, cycles := 7 }

/-- Concrete state for the trace format example: PC 0x0C00 with the
power up register values. -/
def cpuC8 : Cpu :=
  { program_counter := 0x0C00, stack_pointer := Stack.new,
    status := ProcessorStatus.new, a := 0, x := 0, y := 0,
    memory := mem0, cycles := 7 }

/-- State with x = 0, for the addressing mode purity counterexample. -/
def cpuC9a : Cpu :=
  { program_counter := 0x8000, stack_pointer := Stack.new,
    status := ProcessorStatus.new, a := 0, x := 0, y := 0,
    memory := mem0, cycles := 7 }

/-- The same state as cpuC9a except x = 1, the mutation made after
decode. -/
def cpuC9b : Cpu :=
  { program_counter := 0x8000, stack_pointer := Stack.new,
    status := ProcessorStatus.new, a := 0, x := 1, y := 0,
    memory := mem0, cycles := 7 }

/-- The same state as cpuC9a except every memory byte rewritten, the
kind of mutation to_addr cannot observe. -/
def cpuC9c : Cpu :=
  { program_counter := 0x8000, stack_pointer := Stack.new,
    status := ProcessorStatus.new, a := 0, x := 0, y := 0,
    memory := memFF, cycles := 7 }

/-- Concrete state for the absolute indexing example. -/
def cpuC10 : Cpu :=
  { program_counter := 0, stack_pointer := Stack.new,
    status := ProcessorStatus.new, a := 0, x := 0x05, y := 0x30,
    memory := mem0, cycles := 7 }

/-- Concrete state for the JSR and RTS example: PC 0x8000, power up
stack pointer. -/
def cpuC5 : Cpu :=
  { program_counter := 0x8000, stack_pointer := Stack.new,
    status := ProcessorStatus.new, a := 0, x := 0, y := 0,
    memory := mem0, cycles := 7 }

/-- Whether an addressing mode is Absolute indexed by the Y register. -/
def modeUsesAbsoluteY : AddressMode → Bool
  | .absolute .y _ => true
  | _ => false

/-- Whether a possibly panicking mode computation avoids Absolute
indexed by Y. -/
def expModeNoAbsY : Except String AddressMode → Bool
  | .ok m => !(modeUsesAbsoluteY m)
  | .error _ => true

/-- Auxiliary: iterated pushes decrement the absolute stack pointer by
one each, with the truncating Nat subtraction of the embedding. -/
theorem pushN_stack_pointer (v n : Nat) (s : Mem × Nat) :
    (Stack.pushN v n s).2 = s.2 - n := by
  induction n with
  | zero => rfl
  | succ n ih =>
      simp only [Stack.pushN, Stack.push, ih]
      omega

/-- C1: evaluation of the stack code of src/src/cpu.rs at the inputs of
the claim. The first push writes at absolute address 0x10FD, which lies
outside the page 0x0100 to 0x01FF named by the claim, and leaves the
pointer at 0x10FC; after 257 pushes the pointer is 0x0FFC, not equal to
its value after one push, so the pointer neither wraps modulo 256 nor
stays inside one page. -/
theorem c1_stack_base_and_wrap :
    (Stack.pushN 0xAB 1 (mem0, Stack.new)).2 = 0x10FC ∧
    (Stack.pushN 0xAB 257 (mem0, Stack.new)).2 = 0x0FFC ∧
    (0x0FFC : Nat) ≠ 0x10FC ∧
    (Stack.pushN 0xAB 1 (mem0, Stack.new)).1 0x10FD = 0xAB ∧
    (Stack.pushN 0xAB 1 (mem0, Stack.new)).1 0x01FD = 0 ∧
    ¬(0x0100 ≤ 0x10FD ∧ (0x10FD : Nat) ≤ 0x01FF) := by
  refine ⟨rfl, ?_, by decide, by rfl, by rfl, by decide⟩
  rw [pushN_stack_pointer]
  rfl

/-- C2: evaluation of Beq::execute of src/src/opcode/branch.rs at a
taken branch with operand byte 0xFB, which denotes minus five as a
signed offset. The code zero extends the operand and lands at 0x80FD;
the sign extended target demanded by the claim is 0x7FFD. -/
theorem c2_branch_offset_zero_extended :
    (Branch.execute (.beq 0xFB) cpuC2).program_counter = 0x80FD ∧
    specBranchTarget 0x8000 0xFB = 0x7FFD ∧
    (0x80FD : Nat) ≠ 0x7FFD := by
  exact ⟨rfl, by decide, by decide⟩

/-- C4: evaluation of Beq::execute at the two branch timing inputs of
the claim. From PC 0x8000 with offset 0x10 the code reaches 0x8012 in
3 extra cycles, as the claim states for the no crossing case; from PC
0x80F0 the taken branch target 0x8102 lies on a different page than
0x80F2, yet the code still adds only 3 cycles, never the fourth. -/
theorem c4_branch_cycles :
    (Branch.execute (.beq 0x10) cpuC2).program_counter = 0x8012 ∧
    (Branch.execute (.beq 0x10) cpuC2).cycles = 7 + 3 ∧
    is_on_different_pages 0x8002 0x8012 = false ∧
    (Branch.execute (.beq 0x10) cpuC4).program_counter = 0x8102 ∧
    (Branch.execute (.beq 0x10) cpuC4).cycles = 7 + 3 ∧
    is_on_different_pages 0x80F2 0x8102 = true := by
  exact ⟨rfl, rfl, by decide, rfl, rfl, by decide⟩

/-- C3: the status register round trips through its 8 bit encoding:
decoding the encoding of any flag combination restores it; encoding the
decoding of any byte below 256 reproduces the byte with bit 5 forced
to 1 and bit 4 equal to the decoded break flag; and the encoding packs
carry, zero, interrupt disable, decimal, break, reserved 1, overflow and
negative into bits 0 to 7 in that order. -/
theorem c3_status_roundtrip :
    (∀ s : ProcessorStatus, statusFromU8 (statusToU8 s) = s) ∧
    (∀ b : Nat, b < 256 →
      statusToU8 (statusFromU8 b) = (b ||| (1 <<< 5)) ∧
      Nat.testBit (statusToU8 (statusFromU8 b)) 4 = (statusFromU8 b).b_flag) ∧
    (∀ s : ProcessorStatus,
      Nat.testBit (statusToU8 s) 0 = s.carry ∧
      Nat.testBit (statusToU8 s) 1 = s.zero ∧
      Nat.testBit (statusToU8 s) 2 = s.interrupt_disable ∧
      Nat.testBit (statusToU8 s) 3 = s.decimal ∧
      Nat.testBit (statusToU8 s) 4 = s.b_flag ∧
      Nat.testBit (statusToU8 s) 5 = true ∧
      Nat.testBit (statusToU8 s) 6 = s.overflow ∧
      Nat.testBit (statusToU8 s) 7 = s.negative) := by
  refine ⟨?_, by decide, ?_⟩
  · rintro ⟨c, z, i, o, b, n, d⟩
    cases c <;> cases z <;> cases i <;> cases o <;> cases b <;>
      cases n <;> cases d <;> rfl
  · rintro ⟨c, z, i, o, b, n, d⟩
    cases c <;> cases z <;> cases i <;> cases o <;> cases b <;>
      cases n <;> cases d <;> decide

/-- Witness for c3_status_roundtrip at the byte 0x55. -/
theorem c3_status_roundtrip_witness :
    (0x55 < 256) ∧ statusToU8 (statusFromU8 0x55) = (0x55 ||| (1 <<< 5)) :=
  ⟨by decide, (c3_status_roundtrip.2.1 0x55 (by decide)).1⟩

/-- C6: an indexed zero page mode resolves to the operand offset plus
the index register modulo 256, a value that always stays below 256 and
hence inside the zero page; in particular offset 0xFF with x = 0x02
resolves to 0x0001 and not 0x0101. -/
theorem c6_zero_page_index_wrap :
    (∀ (cpu : Cpu) (offset : Nat),
      AddressMode.to_addr (.zeroPage .x offset) cpu =
        .ok (some ((offset + cpu.x) % 256)) ∧
      (offset + cpu.x) % 256 < 256) ∧
    (∀ (cpu : Cpu) (offset : Nat),
      AddressMode.to_addr (.zeroPage .y offset) cpu =
        .ok (some ((offset + cpu.y) % 256))) ∧
    AddressMode.to_addr (.zeroPage .x 0xFF) cpuC6 = .ok (some 0x0001) := by
  refine ⟨fun cpu offset => ⟨?_, Nat.mod_lt _ (by decide)⟩,
    fun cpu offset => ?_, by rfl⟩
  · simp [AddressMode.to_addr, Nat.add_comm]
  · simp [AddressMode.to_addr, Nat.add_comm]

/-- C9 counterexample: two states that agree everywhere except the x
register, the kind of mutation a later operation makes, give different
to_addr results for the same resolved AddressMode value; so a resolved
mode is not a pure function of the state captured at decode time. -/
theorem c9_purity_counterexample :
    cpuC9a.program_counter = cpuC9b.program_counter ∧
    cpuC9a.memory = cpuC9b.memory ∧
    cpuC9a.y = cpuC9b.y ∧
    AddressMode.to_addr (.zeroPage .x 0) cpuC9a = .ok (some 0) ∧
    AddressMode.to_addr (.zeroPage .x 0) cpuC9b = .ok (some 1) :=
  ⟨rfl, rfl, rfl, rfl, rfl⟩

/-- C9 amended: to_addr never reads memory, so writes to memory after
decode cannot change a resolved address: any two states that agree on
the program counter and the two index registers give the same to_addr
for every mode; the live program counter and index registers, by the
counterexample, do remain observable. -/
theorem c9_to_addr_reads_no_memory (mode : AddressMode) (c1 c2 : Cpu)
    (hpc : c1.program_counter = c2.program_counter)
    (hx : c1.x = c2.x) (hy : c1.y = c2.y) :
    AddressMode.to_addr mode c1 = AddressMode.to_addr mode c2 := by
  cases mode with
  | zeroPage r off => cases r <;> simp [AddressMode.to_addr, hx, hy]
  | absolute r a => cases r <;> simp [AddressMode.to_addr, hx, hy]
  | relative off => simp [AddressMode.to_addr, hpc]
  | accumulate => rfl
  | immediate v => rfl
  | indirect r a => rfl

/-- Witness for c9_to_addr_reads_no_memory: two states that differ in
every memory byte still resolve the same zero page mode identically. -/
theorem c9_to_addr_reads_no_memory_witness :
    cpuC9a.memory 0 ≠ cpuC9c.memory 0 ∧
    AddressMode.to_addr (.zeroPage .x 0) cpuC9a =
      AddressMode.to_addr (.zeroPage .x 0) cpuC9c :=
  ⟨by decide, c9_to_addr_reads_no_memory (.zeroPage .x 0) cpuC9a cpuC9c
    rfl rfl rfl⟩

/-- C10: the opcodes 0xB9 (LDA absolute Y in the reference instruction
set), 0xBE (LDX absolute Y) and 0x99 (STA absolute Y) all decode to an
Absolute mode indexed by the X register, whose effective address is the
operand base plus x modulo 65536; and no constructor of any family ever
builds an Absolute mode indexed by Y, so the y register never enters an
absolute indexed effective address. -/
theorem c10_absolute_indexed_uses_x :
    (∀ cpu : Cpu,
      Load.get_mode 0xB9 cpu = .ok (.absolute .x (operand16 cpu)) ∧
      Load.get_mode 0xBE cpu = .ok (.absolute .x (operand16 cpu)) ∧
      Store.get_mode 0x99 cpu = .ok (.absolute .x (operand16 cpu)) ∧
      AddressMode.to_addr (.absolute .x (operand16 cpu)) cpu =
        .ok (some ((operand16 cpu + cpu.x) % 65536))) ∧
    (∀ (opcode : Nat) (cpu : Cpu),
      expModeNoAbsY (Load.get_mode opcode cpu) = true ∧
      expModeNoAbsY (Store.get_mode opcode cpu) = true ∧
      (Jmp.new opcode cpu).all (fun j => !(modeUsesAbsoluteY j.mode)) = true ∧
      (Jsr.new opcode cpu).all (fun j => !(modeUsesAbsoluteY j.mode)) = true ∧
      (Bit.new opcode cpu).all (fun b => !(modeUsesAbsoluteY b.mode)) = true) := by
  constructor
  · intro cpu
    refine ⟨rfl, rfl, rfl, ?_⟩
    simp [AddressMode.to_addr, Nat.add_comm]
  · intro opcode cpu
    refine ⟨?_, ?_, ?_, ?_, ?_⟩
    · simp only [Load.get_mode, expModeNoAbsY]
      split_ifs <;> rfl
    · simp only [Store.get_mode, expModeNoAbsY]
      split_ifs <;> rfl
    · simp only [Jmp.new]
      split_ifs <;> rfl
    · simp only [Jsr.new]
      split_ifs <;> rfl
    · simp only [Bit.new]
      split_ifs <;> rfl

/-- C7 counterexample: two states with the unrecognized byte 0xFF at
different program counters produce exactly the same decode error, whose
payload, like the panic message in the source, names only the opcode
byte; the error therefore cannot carry the program counter as the claim
states. -/
theorem c7_error_payload_counterexample :
    cpuC7a.program_counter ≠ cpuC7b.program_counter ∧
    next cpuC7a = Except.error (unexpectedOpcodeMsg 0xFF) ∧
    next cpuC7b = Except.error (unexpectedOpcodeMsg 0xFF) ∧
    next cpuC7a = next cpuC7b :=
  ⟨by decide, rfl, rfl, rfl⟩

/-- C7 amended: decode takes the CPU by shared reference and so mutates
nothing, and on a byte no family recognizes it fails with the
unsupported opcode error carrying the opcode byte alone, not the
program counter. -/
theorem c7_unrecognized_opcode_error (cpu : Cpu)
    (h : ¬ recognizedOpcode (cpu.memory cpu.program_counter)) :
    next cpu =
      Except.error (unexpectedOpcodeMsg (cpu.memory cpu.program_counter)) := by
  simp only [recognizedOpcode, recognizedList, List.mem_cons,
    List.not_mem_nil, or_false, not_or] at h
  simp [next, Branch.new, Flag.new, Load.new, Load.get_register,
    Store.new, Store.get_register, Jmp.new, Jsr.new, Rts.new, Nop.new,
    Bit.new, h]

/-- Witness for c7_unrecognized_opcode_error at the unrecognized byte
0x02. -/
theorem c7_unrecognized_opcode_error_witness :
    ¬ recognizedOpcode (cpuC7w.memory cpuC7w.program_counter) ∧
    next cpuC7w =
      Except.error
        (unexpectedOpcodeMsg (cpuC7w.memory cpuC7w.program_counter)) :=
  ⟨by decide, c7_unrecognized_opcode_error cpuC7w (by decide)⟩

/-- C8: evaluation of the run loop trace line of src/src/cpu.rs at a
concrete state with PC 0x0C00 and stack offset 0xFD. The emitted line
renders the program counter unpadded as C00, writes a space after the
SP: and CYC: labels, and therefore contains neither the 4 digit PC nor
the SP:xx and CYC:n fields the claim requires; the exact field block
required by the claim and by the conformance test in src/src/cpu.rs is
absent from the line. -/
theorem c8_trace_format :
    runTraceLine cpuC8 "EA        NOP     " =
      "C00  EA        NOP       \tA:00 X:00 Y:00 P:24 SP: FD CYC: 7" ∧
    strContains (runTraceLine cpuC8 "EA        NOP     ") "SP:FD" = false ∧
    strContains (runTraceLine cpuC8 "EA        NOP     ") "CYC:7" = false ∧
    strContains (runTraceLine cpuC8 "EA        NOP     ") "0C00" = false ∧
    strContains (runTraceLine cpuC8 "EA        NOP     ")
      (specStateFields cpuC8) = false ∧
    strContains (runTraceLine cpuC8 "EA        NOP     ")
      " SP: FD CYC: 7" = true := by
  refine ⟨by decide, by decide, by decide, by decide, by decide, by decide⟩

/-- Auxiliary: splitting a 16 bit value into its low and high byte with
addr_to_bytes and recombining them with bytes_to_addr restores the
value. -/
theorem bytes_recombine (v : Nat) (hv : v < 65536) :
    bytes_to_addr (v % 256) ((v >>> 8) % 256) = v := by
  have h256 : (256 : Nat) = 2 ^ 8 := by norm_num
  apply Nat.eq_of_testBit_eq
  intro i
  rw [bytes_to_addr, Nat.testBit_lor, h256, Nat.testBit_shiftLeft,
    Nat.testBit_mod_two_pow, Nat.testBit_mod_two_pow,
    Nat.testBit_shiftRight]
  by_cases h8 : i < 8
  · have : ¬(8 ≤ i) := by omega
    simp [h8, this]
  · by_cases h16 : i < 16
    · have h1 : 8 ≤ i := by omega
      have h2 : i - 8 < 8 := by omega
      have h3 : 8 + (i - 8) = i := by omega
      simp [h1, h2, h3, h8]
    · have hle : (2 : Nat) ^ 16 ≤ 2 ^ i :=
        Nat.pow_le_pow_right (by norm_num) (by omega)
      have hbit : v.testBit i = false :=
        Nat.testBit_eq_false_of_lt
          (lt_of_lt_of_le hv (le_trans (by norm_num) hle))
      have h2 : ¬(i - 8 < 8) := by omega
      simp [h8, h2, hbit]

/-- C5: from any state whose program counter p satisfies p + 3 at most
0xFFFF and whose stack pointer is at least 2, JSR to target t pushes the
two bytes of p + 3 - 1 onto the stack (low byte below high byte), sets
PC to t and adds 6 cycles; the RTS executed next pops that address, sets
PC to it plus 1, so the pair ends with PC equal to p + 3 and exactly 12
cycles added. -/
theorem c5_jsr_rts_roundtrip (p t sp a x y cyc : Nat)
    (st : ProcessorStatus) (m : Mem)
    (hp : p + 3 ≤ 0xFFFF) (hsp : 2 ≤ sp) :
    ∃ c1 : Cpu,
      Jsr.execute { mode := .absolute .none t }
        { program_counter := p, stack_pointer := sp, status := st,
          a := a, x := x, y := y, memory := m, cycles := cyc } =
        Except.ok c1 ∧
      c1.program_counter = t ∧
      c1.cycles = cyc + 6 ∧
      c1.stack_pointer = sp - 2 ∧
      c1.memory (sp - 1) = (p + 3 - 1) % 256 ∧
      c1.memory sp = ((p + 3 - 1) >>> 8) % 256 ∧
      (Rts.execute c1).program_counter = p + 3 ∧
      (Rts.execute c1).cycles = cyc + 12 := by
  have hpp : p + 3 - 1 = p + 2 := by omega
  have hmod : (p + 2) % 65536 = p + 2 := Nat.mod_eq_of_lt (by omega)
  have hne : ¬(sp = sp - 1) := by omega
  have h1 : sp - 2 + 1 = sp - 1 := by omega
  have h2 : sp - 2 + 2 = sp := by omega
  refine ⟨_, rfl, rfl, rfl, rfl, ?_, ?_, ?_, ?_⟩
  · simp [Jsr.execute, Stack.push_addr, addr_to_bytes, Mem.write,
      hpp, hmod]
  · simp [Jsr.execute, Stack.push_addr, addr_to_bytes, Mem.write,
      hpp, hmod, hne]
  · simp only [Rts.execute, Jsr.execute, Stack.push_addr, Stack.pop_addr,
      addr_to_bytes, AddressMode.to_addr]
    simp only [h1, h2, hpp, hmod]
    simp [Mem.write, hne, bytes_recombine (p + 2) (by omega)]
    omega
  · simp [Rts.execute, Jsr.execute]

/-- Witness for c5_jsr_rts_roundtrip: JSR to 0x9000 from PC 0x8000 with
the power up stack pointer, then RTS, ends at PC 0x8003 with 12 cycles
added. -/
theorem c5_jsr_rts_roundtrip_witness :
    (0x8000 + 3 ≤ 0xFFFF) ∧ (2 ≤ Stack.new) ∧
    ∃ c1 : Cpu,
      Jsr.execute { mode := .absolute .none 0x9000 }
        { program_counter := 0x8000, stack_pointer := Stack.new,
          status := ProcessorStatus.new, a := 0, x := 0, y := 0,
          memory := mem0, cycles := 7 } =
        Except.ok c1 ∧
      c1.program_counter = 0x9000 ∧
      c1.cycles = 7 + 6 ∧
      c1.stack_pointer = Stack.new - 2 ∧
      c1.memory (Stack.new - 1) = (0x8000 + 3 - 1) % 256 ∧
      c1.memory Stack.new = ((0x8000 + 3 - 1) >>> 8) % 256 ∧
      (Rts.execute c1).program_counter = 0x8000 + 3 ∧
      (Rts.execute c1).cycles = 7 + 12 :=
  ⟨by decide, by decide,
    c5_jsr_rts_roundtrip 0x8000 0x9000 Stack.new 0 0 0 7
      ProcessorStatus.new mem0 (by decide) (by decide)⟩

end Nes
